import Mathlib

/-!
Verification of the `vortex` (unpdf) image-extraction tool against its
specification.  The program (src/main.rs) walks a PDF's pages, collects the
image XObjects, and for each collected image either writes its raw stream
verbatim (for DCT / JBIG2 / JPX filters) or inline-decodes it (deflate then
PNG) and discards the result.  External libraries (the `pdf` object model,
`flate2`, the `png` crate) are modelled abstractly: fallible calls become
`Option`, and the two codec calls become oracle parameters.
-/

namespace Vortex

/-- The stream filters of `pdf::enc::StreamFilter` that `main.rs` matches on,
plus two representatives of the remaining (fall-through) identifiers. -/
inductive StreamFilter
  | DCTDecode
  | JBIG2Decode
  | JPXDecode
  | FlateDecode
  | CCITTFaxDecode
deriving DecidableEq, Repr

/-- The image dictionary metadata carried by an image XObject.  `width` and
`height` are `Option` because a malformed document may omit them;
`colorChannels` is the component count of the dictionary's color space. -/
structure ImageDict where
  width : Option Int
  height : Option Int
  bitsPerComponent : Nat
  colorChannels : Nat
deriving DecidableEq, Repr

/-- A resolved image XObject as `main.rs` consumes it: its dictionary and the
result of `raw_image_data` (`none` models the `Err` case of that call, which
the code propagates with `?`).  On success it is the stored stream bytes
paired with the declared filter (`Option StreamFilter`, as in the crate). -/
structure PdfImage where
  dict : ImageDict
  rawData : Option (List Nat × Option StreamFilter)
deriving DecidableEq, Repr

/-- A resolved XObject: `main.rs` keeps only the `Image` case. -/
inductive XObject
  | image (img : PdfImage)
  | form
deriving DecidableEq, Repr

/-- An XObject as stored in the document before resolution.  The `image` case
carries the raw dictionary fields; `form` stands for the non-image kinds. -/
inductive RawXObject
  | image (dict : ImageDict) (raw : Option (List Nat × Option StreamFilter))
  | form
deriving DecidableEq, Repr

/-- Modelled from the spec (§3, §6): the external pdf object-model library
resolves an image XObject only when its dictionary declares positive integer
`width` and `height`; "absence of either is a malformed-document condition",
so resolution fails (`none`) and `file.get(r).unwrap()` in `main.rs` panics. -/
def parseXObject : RawXObject → Option XObject
  | .form => some .form
  | .image dict raw =>
    match dict.width, dict.height with
    | some w, some h =>
      if 0 < w ∧ 0 < h then some (.image ⟨dict, raw⟩) else none
    | _, _ => none

/-- A page as `main.rs` reads it: `resources()?` yields the xobject entries
(name, object id) in iteration order, or fails (`none`), which the code
propagates with `?` out of `main`. -/
structure Page where
  resources : Option (List (String × Nat))
deriving DecidableEq, Repr

/-- The opened document: the page sequence (a `none` entry models a page whose
load failed, on which `page.unwrap()` panics) and the object arena keyed by
object id (`none` models a dangling or unparseable reference). -/
structure PdfFile where
  pages : List (Option Page)
  objects : Nat → Option RawXObject

/-- `file.get(r)` followed by the crate-side parse: `none` means the
`.unwrap()` in `main.rs` panics. -/
def getXObject (file : PdfFile) (r : Nat) : Option XObject :=
  (file.objects r).bind parseXObject

/-- Whether a resolved XObject is retained by the
`matches!(**o, XObject::Image(_))` filter. -/
def isImage : XObject → Bool
  | .image _ => true
  | .form => false

/-- The image payload of an XObject (defined on the `image` case). -/
def imageOf : XObject → Option PdfImage
  | .image img => some img
  | .form => none

/-- Outcome of the collection loop (`for page in file.pages()` in `main.rs`):
either the collected image list, or the run dies — `aborted` when a `?`
propagates an error out of `main`, `panicked` when an `.unwrap()` fails. -/
inductive CollectResult
  | ok (images : List PdfImage)
  | aborted
  | panicked
deriving DecidableEq, Repr

/-- Resolve every xobject reference of a page in iteration order, as the
lazy `map(|(_name, &r)| file.get(r).unwrap())` does: the first failing
reference panics (`none`). -/
def resolveAll (file : PdfFile) : List (String × Nat) → Option (List XObject)
  | [] => some []
  | e :: rest =>
    match getXObject file e.2 with
    | none => none
    | some o => (resolveAll file rest).map (fun l => o :: l)

/-- One page's pass of the collection loop: resolve every xobject reference
(`file.get(r).unwrap()`) and keep the images. -/
def collectPage (file : PdfFile) (entries : List (String × Nat)) :
    Option (List PdfImage) :=
  (resolveAll file entries).map
    (fun objs => (objs.filter isImage).filterMap imageOf)

/-- The collection loop over the page list, faithful to `main.rs` lines
72-86: `page.unwrap()` panics on a failed page, `page.resources()?` aborts
the run, each reference is resolved with `file.get(r).unwrap()`, and the
images of each page are appended in page order. -/
def collectFrom (file : PdfFile) : List (Option Page) → CollectResult
  | [] => .ok []
  | none :: _ => .panicked
  | some p :: rest =>
    match p.resources with
    | none => .aborted
    | some entries =>
      match collectPage file entries with
      | none => .panicked
      | some imgs =>
        match collectFrom file rest with
        | .ok more => .ok (imgs ++ more)
        | .aborted => .aborted
        | .panicked => .panicked

/-- `collect_images`: the whole collection phase of `main.rs`. -/
def collectImages (file : PdfFile) : CollectResult :=
  collectFrom file file.pages

/-- The frame metadata the `png` crate returns from `next_frame`
(`info.buffer_size()` is the byte length of the decoded frame). -/
structure PngInfo where
  bufferSize : Nat
deriving DecidableEq, Repr

/-- Oracles for the two external codecs called in the fall-through branch:
`inflate` is `flate2::read::DeflateDecoder::read_to_end` (`none` = `Err`,
which `?` propagates out of `main`), `pngDecode` is
`png::Decoder::read_info` + `next_frame` (`none` = the `Err` on which the
code's `.unwrap()` panics). -/
structure Oracles where
  inflate : List Nat → Option (List Nat)
  pngDecode : List Nat → Option PngInfo

/-- The `match filter` in `main.rs` lines 98-101: the three pass-through
filters and their output extensions; every other filter (or no filter at
all) falls through to the inline decode branch. -/
def extOf : Option StreamFilter → Option String
  | some .DCTDecode => some "jpeg"
  | some .JBIG2Decode => some "jbig2"
  | some .JPXDecode => some "jp2k"
  | _ => none

/-- `format!("extracted_image_{}.{}", i, ext)` in `main.rs`. -/
def fileName (i : Nat) (ext : String) : String :=
  s!"extracted_image_{i}.{ext}"

/-- Result of processing one collected image: a file write (name and bytes),
a silent skip (`continue` after the inline decode, carrying the length of
the discarded decoded bytes), an abort of the run (a `?` propagated), or a
panic (a failed `.unwrap()`). -/
inductive StepResult
  | wrote (fname : String) (data : List Nat)
  | skipped (discardedLen : Nat)
  | aborted
  | panicked
deriving DecidableEq, Repr

/-- The body of the per-image loop in `main.rs` lines 88-127, for the image
at index `i` of the collected sequence: fetch `raw_image_data` (its error
aborts the run via `?`); on a pass-through filter write the raw stream
verbatim to `extracted_image_<i>.<ext>`; otherwise deflate-decompress
(error aborts via `?`), PNG-decode (error panics via `.unwrap()`), and
`continue`, discarding the decoded bytes. -/
def processImage (oc : Oracles) (i : Nat) (img : PdfImage) : StepResult :=
  match img.rawData with
  | none => .aborted
  | some (data, filter) =>
    match extOf filter with
    | some ext => .wrote (fileName i ext) data
    | none =>
      match oc.inflate data with
      | none => .aborted
      | some buf =>
        match oc.pngDecode buf with
        | none => .panicked
        | some info => .skipped info.bufferSize

/-- How the whole run ends: `Ok(())`, an `Err` propagated out of `main`, or
a panic. -/
inductive RunOutcome
  | ok
  | err
  | panic
deriving DecidableEq, Repr

/-- The files written (in order, with their bytes) and how the run ended. -/
structure RunResult where
  files : List (String × List Nat)
  outcome : RunOutcome
deriving DecidableEq, Repr

/-- The `for (i, o) in images.iter().enumerate()` loop of `main.rs`:
processes the collected images in order starting at index `i`; a written
file before a later abort or panic stays written. -/
def runImages (oc : Oracles) (i : Nat) : List PdfImage → RunResult
  | [] => ⟨[], .ok⟩
  | img :: rest =>
    match processImage oc i img with
    | .wrote f d =>
      let r := runImages oc (i + 1) rest
      ⟨(f, d) :: r.files, r.outcome⟩
    | .skipped _ => runImages oc (i + 1) rest
    | .aborted => ⟨[], .err⟩
    | .panicked => ⟨[], .panic⟩

/-- The whole program after the document is opened: collect, then process. -/
def runMain (oc : Oracles) (file : PdfFile) : RunResult :=
  match collectImages file with
  | .ok imgs => runImages oc 0 imgs
  | .aborted => ⟨[], .err⟩
  | .panicked => ⟨[], .panic⟩

/-- The buffer length the spec's decode contract prescribes for a
pixel-buffer result:
`width * height * channels * ceil(bits_per_component / 8)`. -/
def specPixelBufferLen (d : ImageDict) : Nat :=
  (d.width.getD 0).toNat * (d.height.getD 0).toNat * d.colorChannels *
    ((d.bitsPerComponent + 7) / 8)

/-! ### Derived notions used by several claims -/

/-- The file entry a processed image contributes, if any. -/
def writeOf (oc : Oracles) (p : Nat × PdfImage) : Option (String × List Nat) :=
  match processImage oc p.1 p.2 with
  | .wrote f d => some (f, d)
  | _ => none

/-- A page entry the collection loop gets through without dying: the page
loaded, its resources resolved, and every reference on it resolved. -/
def pageOk (file : PdfFile) (op : Option Page) : Prop :=
  ∃ p entries imgs, op = some p ∧ p.resources = some entries ∧
    collectPage file entries = some imgs

/-- Every page of the document survives collection: no page-load, resource
or reference resolution failure anywhere. -/
def resolutionOk (file : PdfFile) : Prop :=
  ∀ op ∈ file.pages, ∃ p entries, op = some p ∧ p.resources = some entries ∧
    ∀ e ∈ entries, (getXObject file e.2).isSome

/-- The images a fully-resolved page contributes, in resource-dictionary
iteration order. -/
def pageImageEntries (file : PdfFile) (entries : List (String × Nat)) :
    List PdfImage :=
  entries.filterMap (fun e => (getXObject file e.2).bind imageOf)

/-- All images of the document in page order, each page's images in
resource-dictionary iteration order; nothing is deduplicated. -/
def docImagesFrom (file : PdfFile) : List (Option Page) → List PdfImage
  | [] => []
  | op :: rest =>
    (match op with
      | some p =>
        match p.resources with
        | some entries => pageImageEntries file entries
        | none => []
      | none => []) ++ docImagesFrom file rest

/-- The number of image resources across the document's pages (each
reference counted once per page that lists it). -/
def imageEntryCount (file : PdfFile) : List (Option Page) → Nat
  | [] => 0
  | op :: rest =>
    (match op with
      | some p =>
        match p.resources with
        | some entries =>
          (entries.filter
            (fun e => ((getXObject file e.2).bind imageOf).isSome)).length
        | none => 0
      | none => 0) + imageEntryCount file rest

/-! ### Concrete fixtures -/

/-- A well-formed image dictionary used by the concrete test documents. -/
def dict8 : ImageDict := ⟨some 4, some 4, 8, 3⟩

/-- A DCT-encoded (already-JPEG) image. -/
def imgJpegA : PdfImage := ⟨dict8, some ([7, 7], some .DCTDecode)⟩

/-- A second DCT-encoded image with different bytes. -/
def imgJpegB : PdfImage := ⟨dict8, some ([8, 8, 8], some .DCTDecode)⟩

/-- A JBIG2-encoded image. -/
def imgJbig : PdfImage := ⟨dict8, some ([3, 1, 4], some .JBIG2Decode)⟩

/-- A deflate-compressed raw-sample image (the generic-compression case). -/
def imgRawSkip : PdfImage := ⟨dict8, some ([2, 2], some .FlateDecode)⟩

/-- A CCITT-fax encoded image: a filter `main.rs` does not recognize. -/
def imgCcitt : PdfImage := ⟨dict8, some ([1, 2, 3], some .CCITTFaxDecode)⟩

/-- An uncompressed (empty filter chain) 2-by-2 grayscale 8-bit dictionary:
the spec's pixel-buffer formula gives 2 * 2 * 1 * 1 = 4 bytes for it. -/
def dictGray2 : ImageDict := ⟨some 2, some 2, 8, 1⟩

/-- An image stored with an empty filter chain. -/
def imgNoFilter : PdfImage := ⟨dictGray2, some ([9, 9, 9], none)⟩

/-- Oracles on which both codec calls fail (the bytes of an unrecognized
filter are not a valid deflate stream). -/
def ocFail : Oracles := ⟨fun _ => none, fun _ => none⟩

/-- Oracles on which deflate succeeds and the PNG decoder reports a
5-byte frame. -/
def ocPng5 : Oracles := ⟨fun _ => some [1, 2, 3], fun _ => some ⟨5⟩⟩

/-- Oracles on which deflate succeeds and the PNG decoder reports an empty
frame. -/
def ocPng0 : Oracles := ⟨fun _ => some [], fun _ => some ⟨0⟩⟩

/-- A page referencing one image object (twice used below) and one form. -/
def pageA : Page := ⟨some [("Im0", 0), ("Fm0", 1)]⟩

/-- A second page referencing the same image object as `pageA`. -/
def pageB : Page := ⟨some [("Im0", 0)]⟩

/-- Arena with one well-formed DCT image (id 0) and one form (id 1). -/
def objsW4 : Nat → Option RawXObject
  | 0 => some (.image dict8 (some ([7, 7], some .DCTDecode)))
  | 1 => some .form
  | _ => none

/-- A document whose two pages both reference image object 0. -/
def fileW4 : PdfFile := ⟨[some pageA, some pageB], objsW4⟩

/-- A page whose `resources()` call fails. -/
def pageNoRes : Page := ⟨none⟩

/-- A document whose first page has unresolvable resources; the second page
holds a perfectly good image. -/
def fileC3 : PdfFile := ⟨[some pageNoRes, some pageB], objsW4⟩

/-- A page with a dangling resource reference (object 9 does not exist). -/
def pageDangling : Page := ⟨some [("Im9", 9)]⟩

/-- A document whose first page has a dangling reference; the second page
holds a perfectly good image. -/
def fileC3b : PdfFile := ⟨[some pageDangling, some pageB], objsW4⟩

/-- An image dictionary with no declared width. -/
def dictNoWidth : ImageDict := ⟨none, some 4, 8, 3⟩

/-- Arena with a width-less image (id 0) next to a well-formed DCT image
(id 1). -/
def objsC6 : Nat → Option RawXObject
  | 0 => some (.image dictNoWidth (some ([5], none)))
  | 1 => some (.image dict8 (some ([7, 7], some .DCTDecode)))
  | _ => none

/-- The single page of the malformed-width document. -/
def pageC6 : Page := ⟨some [("Im0", 0), ("Im1", 1)]⟩

/-- A document holding one width-less image and one good image. -/
def fileC6 : PdfFile := ⟨[some pageC6], objsC6⟩

/-! ### Helper lemmas -/

/-- Characterization of a write: only an image whose filter is one of the
three pass-through kinds reaches `fs::write`, with the raw stream bytes and
the filter's extension at the image's index. -/
theorem wrote_shape (oc : Oracles) (i : Nat) (img : PdfImage) (f : String)
    (d : List Nat) (hw : processImage oc i img = .wrote f d) :
    ∃ data filter ext, img.rawData = some (data, filter) ∧
      extOf filter = some ext ∧ f = fileName i ext ∧ d = data := by
  cases hraw : img.rawData with
  | none => simp [processImage, hraw] at hw
  | some p =>
    obtain ⟨data, filter⟩ := p
    cases hext : extOf filter with
    | none =>
      cases hi : oc.inflate data with
      | none => simp [processImage, hraw, hext, hi] at hw
      | some buf =>
        cases hp : oc.pngDecode buf with
        | none => simp [processImage, hraw, hext, hi, hp] at hw
        | some info => simp [processImage, hraw, hext, hi, hp] at hw
    | some ext =>
      simp only [processImage, hraw, hext] at hw
      obtain ⟨hf, hd⟩ := StepResult.wrote.inj hw
      exact ⟨data, filter, ext, rfl, hext, hf.symm, hd.symm⟩

/-- `extOf` succeeds exactly on the three pass-through filters. -/
theorem extOf_eq_some (filter : Option StreamFilter) (ext : String)
    (h : extOf filter = some ext) :
    filter = some .DCTDecode ∨ filter = some .JBIG2Decode ∨
      filter = some .JPXDecode := by
  cases filter with
  | none => cases h
  | some f => cases f <;> simp_all [extOf]

/-- When the run ends in `Ok`, the files written are exactly the
enumeration of the images, each successful one contributing its single
write, in order. -/
theorem runImages_files_of_ok (oc : Oracles) (imgs : List PdfImage) :
    ∀ i : Nat, (runImages oc i imgs).outcome = .ok →
      (runImages oc i imgs).files = (imgs.enumFrom i).filterMap (writeOf oc) := by
  induction imgs with
  | nil => intro i _; rfl
  | cons img rest ih =>
    intro i h
    simp only [runImages] at h ⊢
    cases hp : processImage oc i img with
    | wrote f d =>
      simp only [hp] at h ⊢
      simp [List.enumFrom, writeOf, hp, ih (i + 1) h]
    | skipped n =>
      simp only [hp] at h ⊢
      simp [List.enumFrom, writeOf, hp, ih (i + 1) h]
    | aborted => simp [hp] at h
    | panicked => simp [hp] at h

/-- An indexed element of a list appears in its enumeration. -/
theorem mem_enumFrom_of_getElem (l : List PdfImage) :
    ∀ (k n : Nat) (a : PdfImage), l[k]? = some a → (n + k, a) ∈ l.enumFrom n := by
  induction l with
  | nil => intro k n a h; cases h
  | cons x xs ih =>
    intro k n a h
    cases k with
    | zero =>
      simp at h
      subst h
      simp [List.enumFrom]
    | succ k =>
      simp at h
      have := ih k (n + 1) a h
      have harith : n + (k + 1) = n + 1 + k := by omega
      rw [harith]
      exact List.mem_cons_of_mem _ this

/-! ### Claim C1 -/

/-- Claim C1, counterexample: an image whose filter is CCITT fax (none of
the recognized pass-through kinds) and whose bytes are not a valid deflate
stream makes the whole run end in `Err`: no UnsupportedFilterError is
reported, the image is not merely skipped, and the DCT image after it is
never processed — extraction does not proceed to the next image. -/
theorem C1_counterexample :
    runImages ocFail 0 [imgCcitt, imgJpegA] = ⟨[], .err⟩ := by decide

/-- Claim C1 (amended): an image with an unrecognized filter identifier is
fed to the inline deflate-then-PNG decode; if deflate fails the whole run
aborts with an error, if the PNG decode fails the process panics, and if
both succeed the image is skipped silently — no UnsupportedFilterError
value exists anywhere in the program. -/
theorem C1_amended (oc : Oracles) (i : Nat) (img : PdfImage) (data : List Nat)
    (fl : StreamFilter) (hraw : img.rawData = some (data, some fl))
    (hf : extOf (some fl) = none) :
    (oc.inflate data = none → processImage oc i img = .aborted) ∧
    (∀ buf, oc.inflate data = some buf → oc.pngDecode buf = none →
      processImage oc i img = .panicked) ∧
    (∀ buf info, oc.inflate data = some buf → oc.pngDecode buf = some info →
      processImage oc i img = .skipped info.bufferSize) := by
  refine ⟨fun hi => ?_, fun buf hi hp => ?_, fun buf info hi hp => ?_⟩
  · simp [processImage, hraw, hf, hi]
  · simp [processImage, hraw, hf, hi, hp]
  · simp [processImage, hraw, hf, hi, hp]

/-- Claim C1, witness: the amended behavior realized on a concrete
CCITT-filtered image whose deflate decode fails. -/
theorem C1_witness :
    (imgCcitt.rawData = some ([1, 2, 3], some .CCITTFaxDecode) ∧
      extOf (some .CCITTFaxDecode) = none ∧ ocFail.inflate [1, 2, 3] = none) ∧
    processImage ocFail 0 imgCcitt = .aborted :=
  ⟨⟨rfl, rfl, rfl⟩,
    (C1_amended ocFail 0 imgCcitt [1, 2, 3] .CCITTFaxDecode rfl rfl).1 rfl⟩

/-! ### Claim C2 -/

/-- Claim C2: a DCT-encoded (pass-through tagged jpeg) image is written
with exactly its original encoded stream bytes, untransformed, under the
jpeg extension.  The program has no target-format selection, so this holds
unconditionally for DCT streams. -/
theorem C2_jpeg_passthrough (oc : Oracles) (i : Nat) (img : PdfImage)
    (data : List Nat) (h : img.rawData = some (data, some .DCTDecode)) :
    processImage oc i img = .wrote (fileName i "jpeg") data := by
  simp [processImage, h, extOf]

/-- Claim C2, witness: a concrete DCT image is written byte-for-byte. -/
theorem C2_witness :
    imgJpegA.rawData = some ([7, 7], some .DCTDecode) ∧
    processImage ocFail 0 imgJpegA = .wrote (fileName 0 "jpeg") [7, 7] :=
  ⟨rfl, C2_jpeg_passthrough ocFail 0 imgJpegA [7, 7] rfl⟩

/-! ### Claim C5 -/

/-- Claim C5, counterexample: on an empty filter chain the code inline
decodes (deflate, then PNG) and discards the bytes; the discarded length is
the PNG decoder's reported frame size (here 5), not the dictionary formula
`width * height * channels * ceil(bits/8)` (here 4), no pixel-buffer
RawImage is produced, and no file is written. -/
theorem C5_counterexample :
    processImage ocPng5 0 imgNoFilter = .skipped 5 ∧
    specPixelBufferLen imgNoFilter.dict = 4 ∧
    processImage ocPng5 0 imgNoFilter ≠
      .skipped (specPixelBufferLen imgNoFilter.dict) ∧
    (runImages ocPng5 0 [imgNoFilter]).files = [] := by decide

/-- Claim C5 (amended): on an empty filter chain, when the inline deflate
and PNG decodes both succeed, the image is skipped and the decoded bytes
discarded; their length is whatever the PNG decoder reports, unrelated to
the dictionary metadata, and no file is written for the image. -/
theorem C5_amended (oc : Oracles) (i : Nat) (img : PdfImage) (data : List Nat)
    (buf : List Nat) (info : PngInfo)
    (hraw : img.rawData = some (data, none))
    (hi : oc.inflate data = some buf) (hp : oc.pngDecode buf = some info) :
    processImage oc i img = .skipped info.bufferSize := by
  simp [processImage, hraw, extOf, hi, hp]

/-- Claim C5, witness: the amended behavior realized on the concrete
empty-filter-chain image. -/
theorem C5_witness :
    (imgNoFilter.rawData = some ([9, 9, 9], none) ∧
      ocPng5.inflate [9, 9, 9] = some [1, 2, 3] ∧
      ocPng5.pngDecode [1, 2, 3] = some ⟨5⟩) ∧
    processImage ocPng5 0 imgNoFilter = .skipped 5 :=
  ⟨⟨rfl, rfl, rfl⟩,
    C5_amended ocPng5 0 imgNoFilter [9, 9, 9] [1, 2, 3] ⟨5⟩ rfl rfl rfl⟩

/-! ### Claim C7 -/

/-- Claim C7, counterexample: a JBIG2-filtered image does get a file
written — its raw stream verbatim as `extracted_image_0.jbig2` — and the
run succeeds; there is no EncodeError and no withheld write as the claim
requires. -/
theorem C7_counterexample :
    runImages ocFail 0 [imgJbig] =
      ⟨[("extracted_image_0.jbig2", [3, 1, 4])], .ok⟩ := by decide

/-- Claim C7 (amended): there is no target-format selection and no
decode-then-encode attempt: an image whose filter is JBIG2 has its raw
stream written verbatim to `extracted_image_<n>.jbig2`, and the images
after it are processed unaffected. -/
theorem C7_amended (oc : Oracles) (i : Nat) (img : PdfImage) (data : List Nat)
    (rest : List PdfImage)
    (h : img.rawData = some (data, some .JBIG2Decode)) :
    processImage oc i img = .wrote (fileName i "jbig2") data ∧
    runImages oc i (img :: rest) =
      ⟨(fileName i "jbig2", data) :: (runImages oc (i + 1) rest).files,
        (runImages oc (i + 1) rest).outcome⟩ := by
  have hp : processImage oc i img = .wrote (fileName i "jbig2") data := by
    simp [processImage, h, extOf]
  exact ⟨hp, by simp [runImages, hp]⟩

/-- Claim C7, witness: the amended behavior realized on the concrete JBIG2
image. -/
theorem C7_witness :
    imgJbig.rawData = some ([3, 1, 4], some .JBIG2Decode) ∧
    processImage ocFail 0 imgJbig = .wrote (fileName 0 "jbig2") [3, 1, 4] :=
  ⟨rfl, (C7_amended ocFail 0 imgJbig [3, 1, 4] [] rfl).1⟩

/-! ### Claim C9 -/

/-- Claim C9: an image whose filter is none of the three pass-through kinds
(empty chain included) is only ever skipped even when deflate and the PNG
decode both succeed — the decoded bytes are discarded and no file is
written — and a file is written only for images carrying the DCT, JBIG2 or
JPX filter. -/
theorem C9_decode_and_discard (oc : Oracles) :
    (∀ i img data filter buf info, img.rawData = some (data, filter) →
      extOf filter = none → oc.inflate data = some buf →
      oc.pngDecode buf = some info →
      processImage oc i img = .skipped info.bufferSize) ∧
    (∀ i img f d, processImage oc i img = .wrote f d →
      ∃ data filter, img.rawData = some (data, filter) ∧
        (filter = some .DCTDecode ∨ filter = some .JBIG2Decode ∨
          filter = some .JPXDecode)) := by
  constructor
  · intro i img data filter buf info hraw hf hi hp
    simp [processImage, hraw, hf, hi, hp]
  · intro i img f d hw
    obtain ⟨data, filter, ext, hraw, hext, -, -⟩ := wrote_shape oc i img f d hw
    exact ⟨data, filter, hraw, extOf_eq_some filter ext hext⟩

/-- Claim C9, witness: the deflate-compressed raw image is skipped, its
decoded bytes discarded. -/
theorem C9_witness :
    (imgRawSkip.rawData = some ([2, 2], some .FlateDecode) ∧
      extOf (some .FlateDecode) = none ∧
      ocPng5.inflate [2, 2] = some [1, 2, 3] ∧
      ocPng5.pngDecode [1, 2, 3] = some ⟨5⟩) ∧
    processImage ocPng5 0 imgRawSkip = .skipped 5 :=
  ⟨⟨rfl, rfl, rfl, rfl⟩,
    (C9_decode_and_discard ocPng5).1 0 imgRawSkip [2, 2] (some .FlateDecode)
      [1, 2, 3] ⟨5⟩ rfl rfl rfl rfl⟩

/-! ### Collection-phase lemmas -/

/-- When every reference on a page resolves, `resolveAll` returns them all,
in iteration order. -/
theorem resolveAll_of_ok (file : PdfFile) :
    ∀ entries : List (String × Nat),
      (∀ e ∈ entries, (getXObject file e.2).isSome) →
      resolveAll file entries =
        some (entries.filterMap (fun e => getXObject file e.2)) := by
  intro entries
  induction entries with
  | nil => intro _; rfl
  | cons e rest ih =>
    intro h
    have he : (getXObject file e.2).isSome := h e (List.mem_cons_self e rest)
    obtain ⟨o, ho⟩ := Option.isSome_iff_exists.mp he
    have hrest := ih (fun x hx => h x (List.mem_cons_of_mem e hx))
    simp [resolveAll, ho, hrest, List.filterMap_cons]

/-- One failing reference on a page makes the whole page's resolution
panic. -/
theorem resolveAll_eq_none (file : PdfFile) :
    ∀ entries : List (String × Nat), ∀ e ∈ entries,
      getXObject file e.2 = none → resolveAll file entries = none := by
  intro entries
  induction entries with
  | nil => intro e he _; cases he
  | cons x rest ih =>
    intro e he hg
    rcases List.mem_cons.mp he with h | h
    · subst h; simp [resolveAll, hg]
    · cases hx : getXObject file x.2 with
      | none => simp [resolveAll, hx]
      | some o => simp [resolveAll, hx, ih e h hg]

/-- Filtering to images then projecting their payload is the same as
projecting directly (`imageOf` is defined exactly on images). -/
theorem filterMap_imageOf_filter (l : List XObject) :
    (l.filter isImage).filterMap imageOf = l.filterMap imageOf := by
  induction l with
  | nil => rfl
  | cons o rest ih => cases o <;> simp [List.filter, isImage, imageOf, ih]

/-- A fully-resolving page contributes exactly its image entries. -/
theorem collectPage_of_ok (file : PdfFile) (entries : List (String × Nat))
    (h : ∀ e ∈ entries, (getXObject file e.2).isSome) :
    collectPage file entries = some (pageImageEntries file entries) := by
  rw [collectPage, resolveAll_of_ok file entries h]
  simp [pageImageEntries, filterMap_imageOf_filter, List.filterMap_filterMap]

/-- When every page fully resolves, collection succeeds with the pages'
images concatenated in page order. -/
theorem collectFrom_of_ok (file : PdfFile) :
    ∀ ps : List (Option Page),
      (∀ op ∈ ps, ∃ p entries, op = some p ∧ p.resources = some entries ∧
        ∀ e ∈ entries, (getXObject file e.2).isSome) →
      collectFrom file ps = .ok (docImagesFrom file ps) := by
  intro ps
  induction ps with
  | nil => intro _; rfl
  | cons op rest ih =>
    intro h
    obtain ⟨p, entries, hop, hres, hok⟩ := h op (List.mem_cons_self op rest)
    subst hop
    have hrest := ih (fun x hx => h x (List.mem_cons_of_mem _ hx))
    simp [collectFrom, hres, collectPage_of_ok file entries hok, hrest,
      docImagesFrom]

/-- A list of images kept by `filterMap` is as long as the count of entries
on which the projection succeeds. -/
theorem length_filterMap_eq (g : (String × Nat) → Option PdfImage) :
    ∀ entries : List (String × Nat),
      (entries.filterMap g).length =
        (entries.filter (fun e => (g e).isSome)).length := by
  intro entries
  induction entries with
  | nil => rfl
  | cons e rest ih =>
    cases hg : g e <;> simp [List.filterMap_cons, List.filter_cons, hg, ih]

/-- The collected image list is exactly as long as the number of image
resources across the pages. -/
theorem docImagesFrom_length (file : PdfFile) :
    ∀ ps : List (Option Page),
      (docImagesFrom file ps).length = imageEntryCount file ps := by
  intro ps
  induction ps with
  | nil => rfl
  | cons op rest ih =>
    cases op with
    | none => simp [docImagesFrom, imageEntryCount, ih]
    | some p =>
      cases hres : p.resources with
      | none => simp [docImagesFrom, imageEntryCount, hres, ih]
      | some entries =>
        simp [docImagesFrom, imageEntryCount, hres, ih, pageImageEntries,
          length_filterMap_eq]

/-- A failure of the collection loop on the tail pages survives a prefix of
pages that collect fine. -/
theorem collectFrom_append_fail (file : PdfFile) :
    ∀ pre : List (Option Page), (∀ op ∈ pre, pageOk file op) →
      ∀ rest : List (Option Page),
        (collectFrom file rest = .aborted →
          collectFrom file (pre ++ rest) = .aborted) ∧
        (collectFrom file rest = .panicked →
          collectFrom file (pre ++ rest) = .panicked) := by
  intro pre
  induction pre with
  | nil => intro _ rest; exact ⟨id, id⟩
  | cons op pre ih =>
    intro h rest
    obtain ⟨p, entries, imgs, hop, hres, hcp⟩ := h op (List.mem_cons_self _ _)
    subst hop
    have hrec := ih (fun x hx => h x (List.mem_cons_of_mem _ hx)) rest
    constructor
    · intro hr
      simp [collectFrom, hres, hcp, hrec.1 hr]
    · intro hr
      simp [collectFrom, hres, hcp, hrec.2 hr]

/-- A dangling or unparseable reference on a page (after any number of fine
pages) panics the whole collection. -/
theorem collectImages_panicked_of_badref (file : PdfFile)
    (pre : List (Option Page)) (p : Page) (ps : List (Option Page))
    (entries : List (String × Nat)) (e : String × Nat)
    (hpages : file.pages = pre ++ some p :: ps)
    (hpre : ∀ op ∈ pre, pageOk file op)
    (hres : p.resources = some entries) (he : e ∈ entries)
    (hg : getXObject file e.2 = none) :
    collectImages file = .panicked := by
  have hcp : collectPage file entries = none := by
    simp [collectPage, resolveAll_eq_none file entries e he hg]
  have h1 : collectFrom file (some p :: ps) = .panicked := by
    simp [collectFrom, hres, hcp]
  have h2 := (collectFrom_append_fail file pre hpre (some p :: ps)).2 h1
  rw [collectImages, hpages]
  exact h2

/-! ### Claim C3 -/

/-- Claim C3, counterexample: a page whose resources cannot be resolved
ends the run in `Err` with no file written (not skipped with a warning),
and a page with a dangling resource reference panics; in both documents the
good image on the following page is never extracted. -/
theorem C3_counterexample :
    runMain ocFail fileC3 = ⟨[], .err⟩ ∧
    runMain ocFail fileC3b = ⟨[], .panic⟩ := by decide

/-- Claim C3 (amended): a page whose resources cannot be resolved aborts
the whole run with an error, and an individual resource reference that
fails to resolve panics the process; in neither case does extraction of the
remaining pages and resources continue, and nothing is written. -/
theorem C3_amended (file : PdfFile) (pre : List (Option Page)) (p : Page)
    (ps : List (Option Page)) (oc : Oracles)
    (hpages : file.pages = pre ++ some p :: ps)
    (hpre : ∀ op ∈ pre, pageOk file op) :
    (p.resources = none →
      collectImages file = .aborted ∧ runMain oc file = ⟨[], .err⟩) ∧
    (∀ entries e, p.resources = some entries → e ∈ entries →
      file.objects e.2 = none →
      collectImages file = .panicked ∧ runMain oc file = ⟨[], .panic⟩) := by
  constructor
  · intro hres
    have h1 : collectFrom file (some p :: ps) = .aborted := by
      simp [collectFrom, hres]
    have hci : collectImages file = .aborted := by
      rw [collectImages, hpages]
      exact (collectFrom_append_fail file pre hpre (some p :: ps)).1 h1
    exact ⟨hci, by simp [runMain, hci]⟩
  · intro entries e hres he hobj
    have hg : getXObject file e.2 = none := by simp [getXObject, hobj]
    have hci := collectImages_panicked_of_badref file pre p ps entries e
      hpages hpre hres he hg
    exact ⟨hci, by simp [runMain, hci]⟩

/-- Claim C3, witness: the amended behavior realized on the concrete
document whose first page has unresolvable resources. -/
theorem C3_witness :
    (fileC3.pages = [] ++ some pageNoRes :: [some pageB] ∧
      pageNoRes.resources = none) ∧
    (collectImages fileC3 = .aborted ∧ runMain ocFail fileC3 = ⟨[], .err⟩) :=
  ⟨⟨rfl, rfl⟩,
    (C3_amended fileC3 [] pageNoRes [some pageB] ocFail rfl
      (fun _ h => absurd h (List.not_mem_nil _))).1 rfl⟩

/-! ### Claim C4 -/

/-- Claim C4: when no page load, resource lookup or reference resolution
fails, collection returns exactly the document's image resources — in page
order, each page's in resource-dictionary iteration order, one entry per
page reference with no deduplication — and their number equals the count of
image resources across the pages. -/
theorem C4_walker_count_order (file : PdfFile) (h : resolutionOk file) :
    collectImages file = .ok (docImagesFrom file file.pages) ∧
    (docImagesFrom file file.pages).length = imageEntryCount file file.pages :=
  ⟨collectFrom_of_ok file file.pages h, docImagesFrom_length file file.pages⟩

/-- Claim C4, witness: the two-page document both of whose pages reference
the same image object yields exactly two entries — the duplicate is emitted
once per page reference. -/
theorem C4_witness :
    resolutionOk fileW4 ∧
    (collectImages fileW4 = .ok (docImagesFrom fileW4 fileW4.pages) ∧
      (docImagesFrom fileW4 fileW4.pages).length =
        imageEntryCount fileW4 fileW4.pages) ∧
    imageEntryCount fileW4 fileW4.pages = 2 ∧
    collectImages fileW4 = .ok [imgJpegA, imgJpegA] := by
  have hres : resolutionOk fileW4 := by
    intro op hop
    simp [fileW4] at hop
    rcases hop with h | h <;> subst h
    · exact ⟨pageA, [("Im0", 0), ("Fm0", 1)], rfl, rfl, by decide⟩
    · exact ⟨pageB, [("Im0", 0)], rfl, rfl, by decide⟩
  exact ⟨hres, C4_walker_count_order fileW4 hres, by decide, by decide⟩

/-! ### Claim C6 -/

/-- Claim C6, counterexample: in a document holding a width-less image and
a good DCT image, the run panics with no file written — the malformed image
is not skipped per image and the good image is not extracted. -/
theorem C6_counterexample :
    parseXObject (.image dictNoWidth (some ([5], none))) = none ∧
    collectImages fileC6 = .panicked ∧
    runMain ocFail fileC6 = ⟨[], .panic⟩ := by decide

/-- Claim C6 (amended): an image whose dictionary is missing its declared
width or height fails to resolve in the external object model, so the
collection loop's unwrap panics: the whole run dies with nothing written —
the error is not isolated to that image and the remaining images are not
extracted. -/
theorem C6_amended (file : PdfFile) (pre : List (Option Page)) (p : Page)
    (ps : List (Option Page)) (entries : List (String × Nat))
    (e : String × Nat) (d : ImageDict)
    (raw : Option (List Nat × Option StreamFilter)) (oc : Oracles)
    (hpages : file.pages = pre ++ some p :: ps)
    (hpre : ∀ op ∈ pre, pageOk file op)
    (hres : p.resources = some entries) (he : e ∈ entries)
    (hobj : file.objects e.2 = some (.image d raw))
    (hd : d.width = none ∨ d.height = none) :
    parseXObject (.image d raw) = none ∧
    collectImages file = .panicked ∧ runMain oc file = ⟨[], .panic⟩ := by
  have hpx : parseXObject (.image d raw) = none := by
    rcases hd with h | h
    · cases hh : d.height <;> simp [parseXObject, h, hh]
    · cases hw : d.width <;> simp [parseXObject, h, hw]
  have hg : getXObject file e.2 = none := by simp [getXObject, hobj, hpx]
  have hci := collectImages_panicked_of_badref file pre p ps entries e
    hpages hpre hres he hg
  exact ⟨hpx, hci, by simp [runMain, hci]⟩

/-- Claim C6, witness: the amended behavior realized on the concrete
width-less image document. -/
theorem C6_witness :
    (fileC6.pages = [] ++ some pageC6 :: [] ∧
      pageC6.resources = some [("Im0", 0), ("Im1", 1)] ∧
      (("Im0", 0) : String × Nat) ∈ [(("Im0", 0) : String × Nat), ("Im1", 1)] ∧
      fileC6.objects 0 = some (.image dictNoWidth (some ([5], none))) ∧
      dictNoWidth.width = none) ∧
    (parseXObject (.image dictNoWidth (some ([5], none))) = none ∧
      collectImages fileC6 = .panicked ∧
      runMain ocFail fileC6 = ⟨[], .panic⟩) :=
  ⟨⟨rfl, rfl, by decide, rfl, rfl⟩,
    C6_amended fileC6 [] pageC6 [] [("Im0", 0), ("Im1", 1)] ("Im0", 0)
      dictNoWidth (some ([5], none)) ocFail rfl
      (fun _ h => absurd h (List.not_mem_nil _)) rfl (by decide) rfl
      (Or.inl rfl)⟩

/-! ### Claim C8 -/

/-- Claim C8: when the run completes, the files written are exactly one per
successfully processed image, in order (the enumeration of the collected
sequence restricted to its writes), and every written file is named
`extracted_image_<i>.<ext>` with `i` the image's index and `ext` the
extension for its detected format, carrying the image's stream bytes. -/
theorem C8_one_file_per_image (oc : Oracles) (imgs : List PdfImage)
    (h : (runImages oc 0 imgs).outcome = .ok) :
    (runImages oc 0 imgs).files = (imgs.enumFrom 0).filterMap (writeOf oc) ∧
    ∀ i img f d, processImage oc i img = .wrote f d →
      ∃ data filter ext, img.rawData = some (data, filter) ∧
        extOf filter = some ext ∧ f = fileName i ext ∧ d = data :=
  ⟨runImages_files_of_ok oc imgs 0 h,
    fun i img f d hw => wrote_shape oc i img f d hw⟩

/-- Claim C8, witness: a run over a DCT image and a JBIG2 image writes
exactly the two expected files. -/
theorem C8_witness :
    (runImages ocPng5 0 [imgJpegA, imgJbig]).outcome = .ok ∧
    (runImages ocPng5 0 [imgJpegA, imgJbig]).files =
      (([imgJpegA, imgJbig] : List PdfImage).enumFrom 0).filterMap
        (writeOf ocPng5) ∧
    (runImages ocPng5 0 [imgJpegA, imgJbig]).files =
      [(fileName 0 "jpeg", [7, 7]), (fileName 1 "jbig2", [3, 1, 4])] :=
  ⟨by decide,
    (C8_one_file_per_image ocPng5 [imgJpegA, imgJbig] (by decide)).1,
    by decide⟩

/-! ### Claim C10 -/

/-- Claim C10: the index in a written file's name is the image's position
in the whole collected sequence, not a count of files written so far — an
image at position `k` that is written is named with index `k` and (when
the run completes) appears among the outputs — and in a concrete run whose
middle image is skipped the written names are `extracted_image_0.jpeg` and
`extracted_image_2.jpeg`: not consecutive. -/
theorem C10_index_is_position (oc : Oracles) (imgs : List PdfImage) :
    (∀ k img f d, imgs[k]? = some img → processImage oc k img = .wrote f d →
      (runImages oc 0 imgs).outcome = .ok →
      ((f, d) ∈ (runImages oc 0 imgs).files ∧ ∃ ext, f = fileName k ext)) ∧
    (runImages ocPng0 0 [imgJpegA, imgRawSkip, imgJpegB]).files.map
        Prod.fst = [fileName 0 "jpeg", fileName 2 "jpeg"] := by
  constructor
  · intro k img f d hk hw hok
    constructor
    · rw [runImages_files_of_ok oc imgs 0 hok]
      have hmem : (k, img) ∈ imgs.enumFrom 0 := by
        have := mem_enumFrom_of_getElem imgs k 0 img hk
        simpa using this
      exact List.mem_filterMap.mpr ⟨(k, img), hmem, by simp [writeOf, hw]⟩
    · obtain ⟨data, filter, ext, -, -, hf, -⟩ := wrote_shape oc k img f d hw
      exact ⟨ext, hf⟩
  · decide

/-- Claim C10, witness: the positional naming realized on a concrete
one-image run. -/
theorem C10_witness :
    (([imgJpegA] : List PdfImage)[0]? = some imgJpegA ∧
      processImage ocPng0 0 imgJpegA = .wrote (fileName 0 "jpeg") [7, 7] ∧
      (runImages ocPng0 0 [imgJpegA]).outcome = .ok) ∧
    ((fileName 0 "jpeg", ([7, 7] : List Nat)) ∈
        (runImages ocPng0 0 [imgJpegA]).files ∧
      ∃ ext, fileName 0 "jpeg" = fileName 0 ext) :=
  ⟨⟨by decide, by decide, by decide⟩,
    (C10_index_is_position ocPng0 [imgJpegA]).1 0 imgJpegA (fileName 0 "jpeg")
      [7, 7] (by decide) (by decide) (by decide)⟩

end Vortex
